import Mathlib

/-
Verification of the safety-supervised motor actuation subsystem of the
Raspberry Pi robot-car controller (src/Raspberry/index.py).

The embedding models the observable state of the L298N driver pins together
with the SafeMotorController instance attributes, and translates each
operation of the source into a pure state-transition function.  Timestamps,
speeds and PWM duty cycles are rationals (Python floats carry exact decimal
values in every scenario the claims mention).
-/

namespace RobotCar

/-- WATCHDOG_TIMEOUT = 2.0 seconds (index.py line 31). -/
def WATCHDOG_TIMEOUT : ℚ := 2

/-- HEARTBEAT_INTERVAL = 0.5 seconds (index.py line 32). -/
def HEARTBEAT_INTERVAL : ℚ := 1/2

/-- Hardware watchdog pin number (index.py line 45).  Python truthiness of
`WATCHDOG_PIN` guards every access, so we record both the number and its
truthiness. -/
def WATCHDOG_PIN : Nat := 7

/-- Python truthiness of WATCHDOG_PIN (`if WATCHDOG_PIN:`). -/
def watchdogPinPresent : Bool := WATCHDOG_PIN != 0

/-- MOTOR_PINS dictionary (index.py lines 35-42): logical role to BCM pin. -/
def MOTOR_PINS : List (String × Nat) :=
  [("IN1", 23), ("IN2", 24), ("IN3", 25), ("IN4", 8), ("ENA", 18), ("ENB", 12)]

/-- Observable state of the SafeMotorController: the four direction pins
(true = HIGH), the two PWM duty cycles, the hardware-watchdog pin level,
and the instance attributes current_speed, last_command_time, is_moving. -/
structure MotorState where
  in1 : Bool
  in2 : Bool
  in3 : Bool
  in4 : Bool
  dutyA : ℚ
  dutyB : ℚ
  watchdogPin : Bool
  current_speed : ℚ
  last_command_time : ℚ
  is_moving : Bool
deriving DecidableEq, Repr

/-- SafeMotorController._update_command_time (index.py lines 172-174):
sets last_command_time to the current time. -/
def update_command_time (now : ℚ) (s : MotorState) : MotorState :=
  { s with last_command_time := now }

/-- SafeMotorController._emergency_stop_motors (index.py lines 176-191),
no-exception path: zero both duty cycles, set all four direction pins LOW,
and drive the hardware-watchdog pin LOW when present. -/
def emergency_stop_motors (s : MotorState) : MotorState :=
  let s1 := { s with dutyA := 0, dutyB := 0,
                     in1 := false, in2 := false, in3 := false, in4 := false }
  if watchdogPinPresent then { s1 with watchdogPin := false } else s1

/-- SafeMotorController.move_forward (index.py lines 193-213).  `sp` is the
optional explicit speed argument (`speed=None` default). -/
def move_forward (sp : Option ℚ) (now : ℚ) (s : MotorState) : MotorState :=
  let s1 := update_command_time now s
  let speed := sp.getD s1.current_speed
  let s2 := if watchdogPinPresent then { s1 with watchdogPin := true } else s1
  { s2 with in1 := true, in2 := false, in3 := true, in4 := false,
            dutyA := speed, dutyB := speed, is_moving := true }

/-- SafeMotorController.move_backward (index.py lines 215-235). -/
def move_backward (sp : Option ℚ) (now : ℚ) (s : MotorState) : MotorState :=
  let s1 := update_command_time now s
  let speed := sp.getD s1.current_speed
  let s2 := if watchdogPinPresent then { s1 with watchdogPin := true } else s1
  { s2 with in1 := false, in2 := true, in3 := false, in4 := true,
            dutyA := speed, dutyB := speed, is_moving := true }

/-- SafeMotorController.turn_left (index.py lines 237-257). -/
def turn_left (sp : Option ℚ) (now : ℚ) (s : MotorState) : MotorState :=
  let s1 := update_command_time now s
  let speed := sp.getD s1.current_speed
  let s2 := if watchdogPinPresent then { s1 with watchdogPin := true } else s1
  { s2 with in1 := false, in2 := true, in3 := true, in4 := false,
            dutyA := speed, dutyB := speed, is_moving := true }

/-- SafeMotorController.turn_right (index.py lines 259-279). -/
def turn_right (sp : Option ℚ) (now : ℚ) (s : MotorState) : MotorState :=
  let s1 := update_command_time now s
  let speed := sp.getD s1.current_speed
  let s2 := if watchdogPinPresent then { s1 with watchdogPin := true } else s1
  { s2 with in1 := true, in2 := false, in3 := false, in4 := true,
            dutyA := speed, dutyB := speed, is_moving := true }

/-- SafeMotorController.stop (index.py lines 281-294): zero both duty
cycles, set all direction pins LOW, keep the watchdog pin enabled, mark
not moving.  Updates the command timestamp first. -/
def stop (now : ℚ) (s : MotorState) : MotorState :=
  let s1 := update_command_time now s
  { s1 with dutyA := 0, dutyB := 0,
            in1 := false, in2 := false, in3 := false, in4 := false,
            is_moving := false }

/-- SafeMotorController.set_speed (index.py lines 296-299):
current_speed = max(0, min(100, speed)). -/
def set_speed (speed : ℚ) (now : ℚ) (s : MotorState) : MotorState :=
  let s1 := update_command_time now s
  { s1 with current_speed := max 0 (min 100 speed) }

/-- One iteration of SafeMotorController._watchdog_loop (index.py lines
141-154), no-exception path.  Returns the new state and whether the
timeout event fired (the forced-stop branch was taken). -/
def watchdog_tick (now : ℚ) (s : MotorState) : MotorState × Bool :=
  if now - s.last_command_time > WATCHDOG_TIMEOUT then
    if s.is_moving then
      ({ emergency_stop_motors s with is_moving := false }, true)
    else (s, false)
  else (s, false)

/-- One iteration of SafeMotorController._heartbeat_loop (index.py lines
156-170), no-exception path.  `heartbeat_state` is the loop-local toggle
variable; the result carries the updated state and toggle. -/
def heartbeat_tick (heartbeat_state : Bool) (s : MotorState) : MotorState × Bool :=
  if watchdogPinPresent && s.is_moving then
    ({ s with watchdogPin := heartbeat_state }, !heartbeat_state)
  else if watchdogPinPresent then
    ({ s with watchdogPin := true }, heartbeat_state)
  else (s, heartbeat_state)

/-- Log events emitted by SafeRobotCarNode.execute_command. -/
inductive LogEvent where
  | movedForward
  | movedBackward
  | turnedLeft
  | turnedRight
  | stoppedLog
  | emergencyStopLog
  | unknownCommand
deriving DecidableEq, Repr

/-- Model of Python str.lower() on command tokens: character-wise
lowercasing (the tokens involved are ASCII). -/
def pyLower (s : String) : String :=
  String.mk (s.data.map Char.toLower)

/-- SafeRobotCarNode.execute_command (index.py lines 638-661): lowercases
the token, dispatches to the motor controller, and logs.  Unknown tokens
only log a warning. -/
def execute_command (command : String) (now : ℚ) (s : MotorState) :
    MotorState × LogEvent :=
  let c := pyLower command
  if c = "forward" then (move_forward none now s, LogEvent.movedForward)
  else if c = "backward" then (move_backward none now s, LogEvent.movedBackward)
  else if c = "left" then (turn_left none now s, LogEvent.turnedLeft)
  else if c = "right" then (turn_right none now s, LogEvent.turnedRight)
  else if c = "stop" then (stop now s, LogEvent.stoppedLog)
  else if c = "emergency_stop" then
    (emergency_stop_motors s, LogEvent.emergencyStopLog)
  else (s, LogEvent.unknownCommand)

/-- Outcome of WebHandler.handle_control_command as seen by the HTTP
caller: a 200 text response, a 400 error (missing cmd parameter), or an
uncaught ValueError escaping from `int(params[...][0])`. -/
inductive HttpResponse where
  | ok (msg : String)
  | errorBadRequest
  | raisedValueError
deriving DecidableEq, Repr

/-- Model of Python's built-in int(str) conversion as used on the HTTP
`value` query parameter: optional surrounding whitespace, an optional
sign, then one or more decimal digits; anything else raises ValueError
(modelled as none). -/
def pyParseInt (v : String) : Option Int :=
  let t := ((v.data.dropWhile Char.isWhitespace).reverse.dropWhile
              Char.isWhitespace).reverse
  let digits :=
    match t with
    | c :: rest => if c == '-' || c == '+' then rest else t
    | [] => t
  let neg : Bool :=
    match t with
    | c :: _ => c == '-'
    | [] => false
  if !digits.isEmpty && digits.all Char.isDigit then
    some ((if neg then (-1 : Int) else 1) * Int.ofNat
      (digits.foldl (fun acc c => acc * 10 + (c.toNat - 48)) 0))
  else none

/-- WebHandler.handle_control_command (index.py lines 538-561): `cmd` and
`value` are the query parameters (none = absent).  A `speed` command with
a value present parses the value (ValueError escapes uncaught on a
malformed value) and calls set_speed; every other present command is
passed to execute_command and answered 200. -/
def handle_control_command (cmd : Option String) (value : Option String)
    (now : ℚ) (s : MotorState) : MotorState × HttpResponse × Option LogEvent :=
  match cmd with
  | none => (s, HttpResponse.errorBadRequest, none)
  | some command =>
    if command = "speed" ∧ value.isSome then
      match pyParseInt (value.getD "") with
      | none => (s, HttpResponse.raisedValueError, none)
      | some n =>
        (set_speed (n : ℚ) now s,
         HttpResponse.ok ("Speed set to " ++ toString n ++ "%"), none)
    else
      let r := execute_command command now s
      (r.1, HttpResponse.ok ("Command " ++ command ++ " executed"), some r.2)

/-- SafeRobotCarNode.cmd_vel_callback (index.py lines 611-631): translates
a Twist (linear.x, angular.z) into motor commands, always refreshing the
command timestamp first. -/
def cmd_vel_callback (linear_x angular_z : ℚ) (now : ℚ) (s : MotorState) :
    MotorState :=
  let s1 := update_command_time now s
  if |linear_x| > |angular_z| then
    if linear_x > 0 then move_forward (some |linear_x * 100|) now s1
    else if linear_x < 0 then move_backward (some |linear_x * 100|) now s1
    else s1
  else if |angular_z| > 1/10 then
    if angular_z > 0 then turn_left (some |angular_z * 100|) now s1
    else turn_right (some |angular_z * 100|) now s1
  else stop now s1

/-- Raw GPIO pin levels, addressed by BCM pin number, for the module-level
shutdown hook which operates on pins directly rather than through a
controller instance. -/
def GpioState := Nat → Bool

/-- GPIO.output on one pin. -/
def gpioWrite (pin : Nat) (v : Bool) (g : GpioState) : GpioState :=
  fun p => if p = pin then v else g p

/-- Module-level emergency_stop (index.py lines 47-65), registered with
atexit and the SIGTERM/SIGINT handlers: drives every pin of the static
MOTOR_PINS map LOW, then the hardware-watchdog pin LOW when present.
It touches no controller instance state. -/
def emergency_stop (g : GpioState) : GpioState :=
  let g1 := MOTOR_PINS.foldl (fun acc pr => gpioWrite pr.2 false acc) g
  if WATCHDOG_PIN != 0 then gpioWrite WATCHDOG_PIN false g1 else g1

/-- A concrete controller state used to instantiate theorems: moving
forward at the default speed with a stale timestamp. -/
def sampleState : MotorState :=
  { in1 := true, in2 := false, in3 := true, in4 := false,
    dutyA := 70, dutyB := 70, watchdogPin := true,
    current_speed := 70, last_command_time := 0, is_moving := true }

/-- C2: From every prior pin/duty state, the forced-stop path leaves all
four direction pins LOW, both enable channels at 0% duty, and the
hardware-watchdog pin (present here) LOW; applying it twice in a row
yields the same final state as applying it once. -/
theorem emergency_stop_motors_spec (s : MotorState) :
    (emergency_stop_motors s).in1 = false ∧
    (emergency_stop_motors s).in2 = false ∧
    (emergency_stop_motors s).in3 = false ∧
    (emergency_stop_motors s).in4 = false ∧
    (emergency_stop_motors s).dutyA = 0 ∧
    (emergency_stop_motors s).dutyB = 0 ∧
    (emergency_stop_motors s).watchdogPin = false ∧
    emergency_stop_motors (emergency_stop_motors s) = emergency_stop_motors s := by
  simp [emergency_stop_motors, watchdogPinPresent, WATCHDOG_PIN]

/-- C3: each movement command sets the direction pins exactly per the truth
table, sets both enable channels to the effective speed (the explicit
argument when given, else current_speed), and sets is_moving to true. -/
theorem movement_truth_table (sp : Option ℚ) (now : ℚ) (s : MotorState) :
    ((move_forward sp now s).in1 = true ∧ (move_forward sp now s).in2 = false ∧
     (move_forward sp now s).in3 = true ∧ (move_forward sp now s).in4 = false ∧
     (move_forward sp now s).dutyA = sp.getD s.current_speed ∧
     (move_forward sp now s).dutyB = sp.getD s.current_speed ∧
     (move_forward sp now s).is_moving = true) ∧
    ((move_backward sp now s).in1 = false ∧ (move_backward sp now s).in2 = true ∧
     (move_backward sp now s).in3 = false ∧ (move_backward sp now s).in4 = true ∧
     (move_backward sp now s).dutyA = sp.getD s.current_speed ∧
     (move_backward sp now s).dutyB = sp.getD s.current_speed ∧
     (move_backward sp now s).is_moving = true) ∧
    ((turn_left sp now s).in1 = false ∧ (turn_left sp now s).in2 = true ∧
     (turn_left sp now s).in3 = true ∧ (turn_left sp now s).in4 = false ∧
     (turn_left sp now s).dutyA = sp.getD s.current_speed ∧
     (turn_left sp now s).dutyB = sp.getD s.current_speed ∧
     (turn_left sp now s).is_moving = true) ∧
    ((turn_right sp now s).in1 = true ∧ (turn_right sp now s).in2 = false ∧
     (turn_right sp now s).in3 = false ∧ (turn_right sp now s).in4 = true ∧
     (turn_right sp now s).dutyA = sp.getD s.current_speed ∧
     (turn_right sp now s).dutyB = sp.getD s.current_speed ∧
     (turn_right sp now s).is_moving = true) := by
  simp [move_forward, move_backward, turn_left, turn_right,
        update_command_time, watchdogPinPresent, WATCHDOG_PIN]

/-- C4: for every integer speed input p, set_speed(p) results in
current_speed = clamp(p, 0, 100), updates last_command_time, and changes
neither the direction pins, the enable duty cycles, nor is_moving. -/
theorem set_speed_spec (p : ℤ) (now : ℚ) (s : MotorState) :
    (set_speed (p : ℚ) now s).current_speed = ((max 0 (min 100 p) : ℤ) : ℚ) ∧
    (set_speed (p : ℚ) now s).last_command_time = now ∧
    (set_speed (p : ℚ) now s).in1 = s.in1 ∧
    (set_speed (p : ℚ) now s).in2 = s.in2 ∧
    (set_speed (p : ℚ) now s).in3 = s.in3 ∧
    (set_speed (p : ℚ) now s).in4 = s.in4 ∧
    (set_speed (p : ℚ) now s).dutyA = s.dutyA ∧
    (set_speed (p : ℚ) now s).dutyB = s.dutyB ∧
    (set_speed (p : ℚ) now s).is_moving = s.is_moving := by
  refine ⟨?_, by simp [set_speed, update_command_time]⟩
  simp only [set_speed, update_command_time]
  push_cast
  norm_num

/-- C5: stop zeroes both enable duty cycles, sets all four direction pins
LOW, sets is_moving to false, and updates last_command_time; a watchdog
tick taken at any time after a fresh stop does not trigger the forced-stop
path and signals no timeout event. -/
theorem stop_spec (now : ℚ) (s : MotorState) :
    (stop now s).dutyA = 0 ∧ (stop now s).dutyB = 0 ∧
    (stop now s).in1 = false ∧ (stop now s).in2 = false ∧
    (stop now s).in3 = false ∧ (stop now s).in4 = false ∧
    (stop now s).is_moving = false ∧
    (stop now s).last_command_time = now ∧
    ∀ later : ℚ, watchdog_tick later (stop now s) = (stop now s, false) := by
  refine ⟨by simp [stop, update_command_time], by simp [stop, update_command_time],
    by simp [stop, update_command_time], by simp [stop, update_command_time],
    by simp [stop, update_command_time], by simp [stop, update_command_time],
    by simp [stop, update_command_time], by simp [stop, update_command_time], ?_⟩
  intro later
  unfold watchdog_tick
  split
  · simp [stop, update_command_time]
  · rfl

/-- C1: whenever is_moving is true and now minus last_command_time exceeds
WATCHDOG_TIMEOUT, the watchdog tick takes the forced-stop path (both
enable channels to 0% duty, all four direction pins LOW) and sets
is_moving to false, signalling the timeout event; and besides the command
path the watchdog is the only actor that flips is_moving: set_speed,
the forced-stop routine itself, and the heartbeat loop all preserve it. -/
theorem watchdog_forces_stop (s : MotorState) (now : ℚ)
    (hmov : s.is_moving = true)
    (htime : now - s.last_command_time > WATCHDOG_TIMEOUT) :
    (watchdog_tick now s).1.dutyA = 0 ∧
    (watchdog_tick now s).1.dutyB = 0 ∧
    (watchdog_tick now s).1.in1 = false ∧
    (watchdog_tick now s).1.in2 = false ∧
    (watchdog_tick now s).1.in3 = false ∧
    (watchdog_tick now s).1.in4 = false ∧
    (watchdog_tick now s).1.is_moving = false ∧
    (watchdog_tick now s).2 = true ∧
    (∀ (p t : ℚ) (u : MotorState), (set_speed p t u).is_moving = u.is_moving) ∧
    (∀ u : MotorState, (emergency_stop_motors u).is_moving = u.is_moving) ∧
    (∀ (b : Bool) (u : MotorState),
      (heartbeat_tick b u).1.is_moving = u.is_moving) := by
  have hw : watchdog_tick now s
      = ({ emergency_stop_motors s with is_moving := false }, true) := by
    simp [watchdog_tick, htime, hmov]
  refine ⟨?_, ?_, ?_, ?_, ?_, ?_, ?_, ?_, ?_, ?_, ?_⟩
  · rw [hw]; simp [emergency_stop_motors, watchdogPinPresent, WATCHDOG_PIN]
  · rw [hw]; simp [emergency_stop_motors, watchdogPinPresent, WATCHDOG_PIN]
  · rw [hw]; simp [emergency_stop_motors, watchdogPinPresent, WATCHDOG_PIN]
  · rw [hw]; simp [emergency_stop_motors, watchdogPinPresent, WATCHDOG_PIN]
  · rw [hw]; simp [emergency_stop_motors, watchdogPinPresent, WATCHDOG_PIN]
  · rw [hw]; simp [emergency_stop_motors, watchdogPinPresent, WATCHDOG_PIN]
  · rw [hw]
  · rw [hw]
  · intro p t u; simp [set_speed, update_command_time]
  · intro u; simp [emergency_stop_motors, watchdogPinPresent, WATCHDOG_PIN]
  · intro b u
    unfold heartbeat_tick
    split
    · rfl
    · split
      · rfl
      · rfl

/-- C1 witness: the watchdog conclusion instantiated at the sample moving
state (last command at time 0) and tick time 3, past the 2 s timeout. -/
theorem watchdog_forces_stop_witness :
    (watchdog_tick 3 sampleState).1.dutyA = 0 ∧
    (watchdog_tick 3 sampleState).1.dutyB = 0 ∧
    (watchdog_tick 3 sampleState).1.in1 = false ∧
    (watchdog_tick 3 sampleState).1.in2 = false ∧
    (watchdog_tick 3 sampleState).1.in3 = false ∧
    (watchdog_tick 3 sampleState).1.in4 = false ∧
    (watchdog_tick 3 sampleState).1.is_moving = false ∧
    (watchdog_tick 3 sampleState).2 = true ∧
    (∀ (p t : ℚ) (u : MotorState), (set_speed p t u).is_moving = u.is_moving) ∧
    (∀ u : MotorState, (emergency_stop_motors u).is_moving = u.is_moving) ∧
    (∀ (b : Bool) (u : MotorState),
      (heartbeat_tick b u).1.is_moving = u.is_moving) :=
  watchdog_forces_stop sampleState 3 (by rfl)
    (by norm_num [sampleState, WATCHDOG_TIMEOUT])

/-- C6 counterexample: the accepted token emergency_stop does NOT update
last_command_time.  At time 5, dispatching emergency_stop on the sample
state (last command at time 0) is accepted (it logs the emergency-stop
event) yet leaves last_command_time at 0, which differs from 5. -/
theorem emergency_stop_token_keeps_timestamp :
    (execute_command "emergency_stop" 5 sampleState).1.last_command_time = 0 ∧
    (execute_command "emergency_stop" 5 sampleState).2
      = LogEvent.emergencyStopLog ∧
    (0 : ℚ) ≠ 5 := by
  refine ⟨rfl, rfl, by norm_num⟩

/-- C6 amended: every accepted command token except emergency_stop updates
last_command_time to the current time: forward, backward, left, right and
stop through the dispatcher, and speed through set_speed; emergency_stop
alone leaves the liveness timestamp untouched. -/
theorem accepted_commands_update_timestamp (t : String) (now : ℚ)
    (s : MotorState)
    (h : t ∈ (["forward", "backward", "left", "right", "stop"] : List String)) :
    (execute_command t now s).1.last_command_time = now ∧
    (∀ p : ℚ, (set_speed p now s).last_command_time = now) ∧
    (execute_command "emergency_stop" now s).1.last_command_time
      = s.last_command_time := by
  refine ⟨?_, fun p => by simp [set_speed, update_command_time], ?_⟩
  · simp only [List.mem_cons, List.mem_singleton, List.not_mem_nil, or_false] at h
    rcases h with h | h | h | h | h <;> subst h
    · have e : execute_command "forward" now s
          = (move_forward none now s, LogEvent.movedForward) := rfl
      rw [e]; simp [move_forward, update_command_time, watchdogPinPresent,
        WATCHDOG_PIN]
    · have e : execute_command "backward" now s
          = (move_backward none now s, LogEvent.movedBackward) := rfl
      rw [e]; simp [move_backward, update_command_time, watchdogPinPresent,
        WATCHDOG_PIN]
    · have e : execute_command "left" now s
          = (turn_left none now s, LogEvent.turnedLeft) := rfl
      rw [e]; simp [turn_left, update_command_time, watchdogPinPresent,
        WATCHDOG_PIN]
    · have e : execute_command "right" now s
          = (turn_right none now s, LogEvent.turnedRight) := rfl
      rw [e]; simp [turn_right, update_command_time, watchdogPinPresent,
        WATCHDOG_PIN]
    · have e : execute_command "stop" now s
          = (stop now s, LogEvent.stoppedLog) := rfl
      rw [e]; simp [stop, update_command_time]
  · have e : execute_command "emergency_stop" now s
        = (emergency_stop_motors s, LogEvent.emergencyStopLog) := rfl
    rw [e]; simp [emergency_stop_motors, watchdogPinPresent, WATCHDOG_PIN]

/-- C6 amended witness: the forward token at time 9 on the sample state
refreshes the timestamp to 9, while emergency_stop keeps it at the sample
value. -/
theorem accepted_commands_update_timestamp_witness :
    (execute_command "forward" 9 sampleState).1.last_command_time = 9 ∧
    (∀ p : ℚ, (set_speed p 9 sampleState).last_command_time = 9) ∧
    (execute_command "emergency_stop" 9 sampleState).1.last_command_time
      = sampleState.last_command_time :=
  accepted_commands_update_timestamp "forward" 9 sampleState (by decide)

/-- C7 counterexample: dispatching token speed with the numeric argument
absent is NOT rejected as an InvalidArgument condition: the handler falls
through to the generic dispatcher, answers with a 200 success response,
merely logs an unknown-command warning, and leaves the state unchanged. -/
theorem speed_without_value_not_rejected :
    handle_control_command (some "speed") none 5 sampleState
      = (sampleState, HttpResponse.ok ("Command " ++ "speed" ++ " executed"),
         some LogEvent.unknownCommand) := by
  rfl

/-- C7 amended: token speed with the argument absent is routed to the
generic dispatcher and reported as an accepted 200 response with an
unknown-command warning and no motor-state change; with a malformed
numeric argument the int() conversion error escapes uncaught, again with
no motor-state change; with a well-formed argument the raw (unclamped)
integer is handed to set_speed, which performs the clamping. -/
theorem speed_argument_handling (now : ℚ) (s : MotorState) :
    (handle_control_command (some "speed") none now s
      = (s, HttpResponse.ok ("Command " ++ "speed" ++ " executed"),
         some LogEvent.unknownCommand)) ∧
    (∀ v : String, pyParseInt v = none →
      handle_control_command (some "speed") (some v) now s
        = (s, HttpResponse.raisedValueError, none)) ∧
    (∀ (v : String) (n : Int), pyParseInt v = some n →
      handle_control_command (some "speed") (some v) now s
        = (set_speed (n : ℚ) now s,
           HttpResponse.ok ("Speed set to " ++ toString n ++ "%"), none)) := by
  refine ⟨?_, ?_, ?_⟩
  · have e : execute_command "speed" now s = (s, LogEvent.unknownCommand) := rfl
    simp [handle_control_command, e]
  · intro v hv
    simp [handle_control_command, hv]
  · intro v n hv
    simp [handle_control_command, hv]

/-- C7 amended witness: a malformed numeric argument (the string abc) at
time 1 on the sample state escapes as a conversion error with the state
unchanged. -/
theorem speed_argument_handling_witness :
    handle_control_command (some "speed") (some "abc") 1 sampleState
      = (sampleState, HttpResponse.raisedValueError, none) :=
  (speed_argument_handling 1 sampleState).2.1 "abc" (by rfl)

/-- C8: every token whose lowercased form lies outside the valid set is
dispatched as an unknown command: the warning event is produced and the
motor state is completely unchanged (pins, duties, is_moving and the
timestamp all stay as they were), so motion in progress continues and no
emergency stop is triggered. -/
theorem unknown_command_is_noop (t : String) (now : ℚ) (s : MotorState)
    (h : pyLower t ∉ (["forward", "backward", "left", "right", "stop",
                       "speed", "emergency_stop"] : List String)) :
    execute_command t now s = (s, LogEvent.unknownCommand) := by
  simp only [List.mem_cons, List.mem_singleton, List.not_mem_nil, or_false,
    not_or] at h
  obtain ⟨h1, h2, h3, h4, h5, _, h7⟩ := h
  simp [execute_command, h1, h2, h3, h4, h5, h7]

/-- C8 witness: the unknown token banana issued at time 1 while the
sample state is moving forward changes nothing and only yields the
unknown-command warning. -/
theorem unknown_command_is_noop_witness :
    execute_command "banana" 1 sampleState
      = (sampleState, LogEvent.unknownCommand) :=
  unknown_command_is_noop "banana" 1 sampleState (by decide)

/-- Folding GPIO low-writes over a pin list drives exactly the listed pins
low and leaves every other pin untouched. -/
theorem foldl_gpioWrite_false (l : List (String × Nat)) (g : GpioState)
    (p : Nat) :
    (l.foldl (fun acc pr => gpioWrite pr.2 false acc) g) p
      = if p ∈ l.map Prod.snd then false else g p := by
  induction l generalizing g with
  | nil => simp
  | cons hd tl ih =>
    simp only [List.foldl_cons, List.map_cons, List.mem_cons]
    rw [ih]
    by_cases h1 : p ∈ tl.map Prod.snd
    · simp [h1]
    · by_cases h2 : p = hd.2 <;> simp [h1, h2, gpioWrite]

/-- Pointwise effect of the module-level shutdown hook: every pin listed
in MOTOR_PINS and the hardware-watchdog pin read LOW afterwards, and any
other pin keeps its prior level. -/
theorem emergency_stop_pin (g : GpioState) (p : Nat) :
    emergency_stop g p
      = if p ∈ ([23, 24, 25, 8, 18, 12, 7] : List Nat) then false else g p := by
  have e : emergency_stop g p
      = (if p = WATCHDOG_PIN then false
         else (MOTOR_PINS.foldl (fun acc pr => gpioWrite pr.2 false acc) g) p) := by
    show (if (WATCHDOG_PIN != 0) = true then
            gpioWrite WATCHDOG_PIN false
              (MOTOR_PINS.foldl (fun acc pr => gpioWrite pr.2 false acc) g)
          else MOTOR_PINS.foldl (fun acc pr => gpioWrite pr.2 false acc) g) p
        = _
    rw [if_pos (by decide)]
    rfl
  rw [e, foldl_gpioWrite_false]
  by_cases h7 : p = WATCHDOG_PIN
  · subst h7; simp [WATCHDOG_PIN]
  · rw [if_neg h7]
    by_cases hm : p ∈ MOTOR_PINS.map Prod.snd
    · rw [if_pos hm]
      have hin : p ∈ ([23, 24, 25, 8, 18, 12, 7] : List Nat) := by
        simp [MOTOR_PINS] at hm
        rcases hm with h | h | h | h | h | h <;> simp [h]
      rw [if_pos hin]
    · rw [if_neg hm]
      have hout : p ∉ ([23, 24, 25, 8, 18, 12, 7] : List Nat) := by
        simp [MOTOR_PINS] at hm
        push_neg at hm
        simp [WATCHDOG_PIN] at h7
        simp [hm.1, hm.2.1, hm.2.2.1, hm.2.2.2.1, hm.2.2.2.2.1,
          hm.2.2.2.2.2, h7]
      rw [if_neg hout]

/-- C9: the shutdown hook forces all six motor pins and the
hardware-watchdog pin LOW from any prior pin state; it is idempotent, and
its effect on every safety-relevant pin is the same regardless of the
prior state (it derives the pin set from the static MOTOR_PINS map, not
from instance state, so it completes even when the controller was never
constructed). -/
theorem emergency_stop_hook_spec (g : GpioState) :
    emergency_stop g 23 = false ∧ emergency_stop g 24 = false ∧
    emergency_stop g 25 = false ∧ emergency_stop g 8 = false ∧
    emergency_stop g 18 = false ∧ emergency_stop g 12 = false ∧
    emergency_stop g 7 = false ∧
    emergency_stop (emergency_stop g) = emergency_stop g ∧
    (∀ (g2 : GpioState) (p : Nat),
      p ∈ (MOTOR_PINS.map Prod.snd) ∨ p = WATCHDOG_PIN →
      emergency_stop g p = emergency_stop g2 p) := by
  refine ⟨?_, ?_, ?_, ?_, ?_, ?_, ?_, ?_, ?_⟩
  · rw [emergency_stop_pin]; simp
  · rw [emergency_stop_pin]; simp
  · rw [emergency_stop_pin]; simp
  · rw [emergency_stop_pin]; simp
  · rw [emergency_stop_pin]; simp
  · rw [emergency_stop_pin]; simp
  · rw [emergency_stop_pin]; simp
  · funext p
    rw [emergency_stop_pin, emergency_stop_pin]
    by_cases h : p ∈ ([23, 24, 25, 8, 18, 12, 7] : List Nat) <;> simp [h]
  · intro g2 p hp
    rw [emergency_stop_pin, emergency_stop_pin]
    have h : p ∈ ([23, 24, 25, 8, 18, 12, 7] : List Nat) := by
      simp only [MOTOR_PINS, WATCHDOG_PIN, List.map_cons, List.map_nil] at hp
      rcases hp with hp | hp
      · simp at hp; rcases hp with h | h | h | h | h | h <;> simp [h]
      · simp [hp]
    simp [h]

/-- C9 witness: the hook applied to the all-HIGH pin state, compared with
the all-LOW pin state, agrees on pin 23 (and the unconditional conjuncts
are instantiated at the all-HIGH state). -/
theorem emergency_stop_hook_spec_witness :
    emergency_stop (fun _ => true) 23 = false ∧
    emergency_stop (fun _ => true) 23 = emergency_stop (fun _ => false) 23 :=
  ⟨(emergency_stop_hook_spec (fun _ => true)).1,
   (emergency_stop_hook_spec (fun _ => true)).2.2.2.2.2.2.2.2
     (fun _ => false) 23 (Or.inl (by decide))⟩

/-- C10: the movement operations pass an explicit speed argument straight
through to both duty cycles with no clamping (only set_speed clamps), so
the commanded duty equals the argument even outside [0, 100]; and the
velocity-translation path commands duty |linear_x| * 100, so any linear
velocity of magnitude above 1 commands a duty above 100. -/
theorem explicit_speed_unclamped (p : ℚ) (now : ℚ) (s : MotorState) :
    (move_forward (some p) now s).dutyA = p ∧
    (move_forward (some p) now s).dutyB = p ∧
    (move_backward (some p) now s).dutyA = p ∧
    (move_backward (some p) now s).dutyB = p ∧
    (turn_left (some p) now s).dutyA = p ∧
    (turn_left (some p) now s).dutyB = p ∧
    (turn_right (some p) now s).dutyA = p ∧
    (turn_right (some p) now s).dutyB = p ∧
    (∀ lx az : ℚ, |lx| > |az| → lx > 1 →
      (cmd_vel_callback lx az now s).dutyA = lx * 100 ∧
      (cmd_vel_callback lx az now s).dutyA > 100) := by
  refine ⟨?_, ?_, ?_, ?_, ?_, ?_, ?_, ?_, ?_⟩
  · simp [move_forward, update_command_time, watchdogPinPresent, WATCHDOG_PIN]
  · simp [move_forward, update_command_time, watchdogPinPresent, WATCHDOG_PIN]
  · simp [move_backward, update_command_time, watchdogPinPresent, WATCHDOG_PIN]
  · simp [move_backward, update_command_time, watchdogPinPresent, WATCHDOG_PIN]
  · simp [turn_left, update_command_time, watchdogPinPresent, WATCHDOG_PIN]
  · simp [turn_left, update_command_time, watchdogPinPresent, WATCHDOG_PIN]
  · simp [turn_right, update_command_time, watchdogPinPresent, WATCHDOG_PIN]
  · simp [turn_right, update_command_time, watchdogPinPresent, WATCHDOG_PIN]
  · intro lx az hdom hgt
    have hpos : lx > 0 := by linarith
    have habs : |lx * 100| = lx * 100 := abs_of_pos (by linarith)
    have e : cmd_vel_callback lx az now s
        = move_forward (some |lx * 100|) now (update_command_time now s) := by
      simp [cmd_vel_callback, hdom, hpos]
    rw [e, habs]
    constructor
    · simp [move_forward, update_command_time, watchdogPinPresent, WATCHDOG_PIN]
    · have : (move_forward (some (lx * 100)) now
          (update_command_time now s)).dutyA = lx * 100 := by
        simp [move_forward, update_command_time, watchdogPinPresent,
          WATCHDOG_PIN]
      rw [this]
      nlinarith

/-- C10 witness: an explicit speed of 150 is commanded verbatim, and a
linear velocity of 3/2 (dominating a zero angular component) commands a
duty of 150, which exceeds 100. -/
theorem explicit_speed_unclamped_witness :
    (move_forward (some 150) 1 sampleState).dutyA = 150 ∧
    (cmd_vel_callback (3/2) 0 1 sampleState).dutyA = (3/2) * 100 ∧
    (cmd_vel_callback (3/2) 0 1 sampleState).dutyA > 100 :=
  ⟨(explicit_speed_unclamped 150 1 sampleState).1,
   ((explicit_speed_unclamped 150 1 sampleState).2.2.2.2.2.2.2.2 (3/2) 0
      (by norm_num) (by norm_num)).1,
   ((explicit_speed_unclamped 150 1 sampleState).2.2.2.2.2.2.2.2 (3/2) 0
      (by norm_num) (by norm_num)).2⟩

end RobotCar
